import Mathlib

/-!
Shallow embedding of the Windows socket translation layer
(`src/sys/windows.rs` of the `socket2` crate) and proofs about it.

Machine integers are modelled as `Nat` with explicit bounds or `% 2^w`
where the source performs a wrapping cast; fallible operations return
`Except IoError`; each native (OS) call is modelled by an oracle
argument giving the outcome of the call, so that the translation logic
around the call — which is what the source file contributes — is
captured exactly.
-/

namespace Win

/-- The value `<c_int>::max_value()` for the 32-bit `c_int` used by winsock. -/
def CINT_MAX : Nat := 2147483647

/-- The value `DWORD::max_value()` (`u32`). -/
def DWORD_MAX : Nat := 4294967295

/-- The value `winapi::um::winbase::INFINITE` = `0xFFFFFFFF`. -/
def INFINITE : Nat := 4294967295

/-- The value `u64::max_value()`, the bound for the checked `u64` arithmetic in `dur2ms`. -/
def U64MAX : Nat := 18446744073709551615

/-- The `WSAESHUTDOWN` error code ("socket already shut down"). -/
def WSAESHUTDOWN : Int := 10058

/-- The `WSAEMSGSIZE` error code ("datagram larger than the buffer"). -/
def WSAEMSGSIZE : Int := 10040

/-- The `MSG_PEEK` receive flag (`0x2` in the source). -/
def MSG_PEEK : Nat := 2

/-- The crate-defined fake `MSG_TRUNC` flag (`0x01` in the source). -/
def MSG_TRUNC : Nat := 1

/-- The value `mem::size_of::<SOCKADDR_STORAGE>()`: 128 bytes, of which the first two
are the address-family field. -/
def STORAGE_SIZE : Nat := 128

/-- Model of `std::time::Duration`: a (seconds, subsecond nanoseconds) pair.  In Rust
the seconds are a `u64` and the nanoseconds are kept `< 10^9`; theorems carry
these bounds as hypotheses where they matter. -/
structure Duration where
  secs : Nat
  nanos : Nat
deriving DecidableEq

/-- Embedding of `Duration::new`: normalises nanoseconds into seconds. -/
def Duration.new (secs nanos : Nat) : Duration :=
  ⟨secs + nanos / 1000000000, nanos % 1000000000⟩

/-- The error model of the layer: `io::Error` is either the local
`InvalidInput` rejection or an OS error carrying its raw code. -/
inductive IoError where
  | invalidInput
  | systemError (code : Int)
deriving DecidableEq

/-- Checked `u64` multiplication (`u64::checked_mul`). -/
def checked_mul (a b : Nat) : Option Nat :=
  if a * b ≤ U64MAX then some (a * b) else none

/-- Checked `u64` addition (`u64::checked_add`). -/
def checked_add (a b : Nat) : Option Nat :=
  if a + b ≤ U64MAX then some (a + b) else none

/-- Embedding of `fn dur2ms(dur: Option<Duration>) -> io::Result<DWORD>`: encode an
optional duration as a `DWORD` millisecond count.  Nanosecond precision is
rounded up; values above `DWORD::MAX` milliseconds (and overflow of the
checked `u64` chain) saturate to `INFINITE`; a resulting `0` (i.e. a zero
duration) is rejected with `InvalidInput`; `None` encodes as the sentinel
`0`. -/
def dur2ms : Option Duration → Except IoError Nat
  | none => .ok 0
  | some dur =>
    let ms := (((((checked_mul dur.secs 1000).bind
        (fun ms => checked_add ms (dur.nanos / 1000000))).bind
        (fun ms => checked_add ms (if dur.nanos % 1000000 > 0 then 1 else 0))).map
        (fun ms => if ms > DWORD_MAX then INFINITE else ms)).getD INFINITE)
    if ms = 0 then
      .error .invalidInput
    else
      .ok ms

/-- Embedding of `fn ms2dur(raw: DWORD) -> Option<Duration>`: decode a `DWORD`
millisecond count; the sentinel `0` decodes to `None`. -/
def ms2dur (raw : Nat) : Option Duration :=
  if raw = 0 then
    none
  else
    some (Duration.new (raw / 1000) ((raw % 1000) * 1000000))

/-- Embedding of `fn clamp(input: usize) -> c_int`: cap a buffer length at
`c_int::max_value()`. -/
def clamp (input : Nat) : Nat :=
  min input CINT_MAX

/-- The winsock `linger` structure; both fields are `u16` on Windows. -/
structure SockLinger where
  l_onoff : Nat
  l_linger : Nat
deriving DecidableEq

/-- Embedding of `fn linger2dur(linger_opt: sock::linger) -> Option<Duration>`. -/
def linger2dur (linger_opt : SockLinger) : Option Duration :=
  if linger_opt.l_onoff = 0 then
    none
  else
    some ⟨linger_opt.l_linger, 0⟩

/-- Embedding of `fn dur2linger(dur: Option<Duration>) -> sock::linger`: the source
writes `l_linger: d.as_secs() as u16`, a wrapping (`as`) cast, modelled as
`% 2^16`. -/
def dur2linger : Option Duration → SockLinger
  | some d => ⟨1, d.secs % 65536⟩
  | none => ⟨0, 0⟩

/-! ## Address codec -/

/-- Host byte order, a parameter of the machine the code runs on.  The
source uses the native-endian conversions `u32::from_ne_bytes` /
`u32::to_ne_bytes` so that the stored bytes are never swapped. -/
inductive Endian where
  | little
  | big
deriving DecidableEq

/-- Embedding of `u32::from_ne_bytes([b0, b1, b2, b3])` under the given host order. -/
def u32_from_ne_bytes (e : Endian) (b0 b1 b2 b3 : Nat) : Nat :=
  match e with
  | .little => b0 + b1 * 256 + b2 * 65536 + b3 * 16777216
  | .big => b3 + b2 * 256 + b1 * 65536 + b0 * 16777216

/-- Embedding of `u32::to_ne_bytes` under the given host order: the four bytes as laid
out in memory, lowest address first. -/
def u32_to_ne_bytes (e : Endian) (x : Nat) : Nat × Nat × Nat × Nat :=
  match e with
  | .little => (x % 256, x / 256 % 256, x / 65536 % 256, x / 16777216 % 256)
  | .big => (x / 16777216 % 256, x / 65536 % 256, x / 256 % 256, x % 256)

/-- Model of `std::net::Ipv4Addr`: four octets, each `< 256` (a `u8` in Rust;
theorems carry the bound as hypotheses). -/
structure Ipv4Addr where
  o0 : Nat
  o1 : Nat
  o2 : Nat
  o3 : Nat
deriving DecidableEq

/-- The native `IN_ADDR`: its `S_un.S_addr` field, a `u32` whose in-memory
bytes are `u32_to_ne_bytes e S_addr`. -/
structure InAddr where
  S_addr : Nat
deriving DecidableEq

/-- Embedding of `fn to_in_addr(addr: &Ipv4Addr) -> IN_ADDR`: writes
`u32::from_ne_bytes(addr.octets())` into `S_addr`. -/
def to_in_addr (e : Endian) (addr : Ipv4Addr) : InAddr :=
  ⟨u32_from_ne_bytes e addr.o0 addr.o1 addr.o2 addr.o3⟩

/-- Embedding of `fn from_in_addr(in_addr: IN_ADDR) -> Ipv4Addr`: reads
`S_addr.to_ne_bytes()` back as the four octets. -/
def from_in_addr (e : Endian) (in_addr : InAddr) : Ipv4Addr :=
  match u32_to_ne_bytes e in_addr.S_addr with
  | (b0, b1, b2, b3) => ⟨b0, b1, b2, b3⟩

/-- Model of `std::net::Ipv6Addr`, identified with its sixteen octets. -/
structure Ipv6Addr where
  octets : List Nat
deriving DecidableEq

/-- The native `in6_addr`: its `u.Byte` field, the sixteen address bytes
in memory order. -/
structure In6Addr where
  Byte : List Nat
deriving DecidableEq

/-- Embedding of `fn to_in6_addr(addr: &Ipv6Addr) -> in6_addr`: stores `addr.octets()`
directly into the byte array of the union. -/
def to_in6_addr (addr : Ipv6Addr) : In6Addr :=
  ⟨addr.octets⟩

/-- Embedding of `fn from_in6_addr(in6_addr: in6_addr) -> Ipv6Addr`: reads the byte
array back. -/
def from_in6_addr (in6_addr : In6Addr) : Ipv6Addr :=
  ⟨in6_addr.Byte⟩

/-! ## Address storage and the portable address type -/

/-- The native `SOCKADDR_STORAGE` as seen by this file: an address-family
field (`u16`, the first two bytes) followed by the 126 data bytes. -/
structure SockaddrStorage where
  family : Nat
  data : List Nat
deriving DecidableEq

/-- The zero-initialised `SOCKADDR_STORAGE` (`mem::zeroed()`), with
address family `0` (`AF_UNSPEC`) and every data byte zero. -/
def zeroedStorage : SockaddrStorage :=
  ⟨0, List.replicate 126 0⟩

/-- Modelled from the spec: the portable opaque address value (`SockAddr`,
defined in the crate root and not part of this file) carries a
fixed-capacity native address buffer plus the length the OS reported. -/
structure SockAddr where
  storage : SockaddrStorage
  len : Nat
deriving DecidableEq

/-- Modelled from the spec: `SockAddr::from_raw_parts` constructs the
portable address from a native address structure and its reported
length. -/
def SockAddr.from_raw_parts (storage : SockaddrStorage) (len : Nat) : SockAddr :=
  ⟨storage, len⟩

/-- The address-family tag of a portable address. -/
def SockAddr.family (a : SockAddr) : Nat :=
  a.storage.family

/-- Model of `RecvFlags`, the truncation-flag carrier returned by vectored
receives; the crate stores the raw flag bits. -/
structure RecvFlags where
  bits : Nat
deriving DecidableEq

/-- Embedding of `RecvFlags::is_truncated`: whether the crate-defined `MSG_TRUNC` bit
is set. -/
def RecvFlags.is_truncated (f : RecvFlags) : Bool :=
  f.bits &&& MSG_TRUNC != 0

/-! ## I/O operations

Each native call is modelled by an oracle giving its outcome for the
arguments the code passes it; the definitions below reproduce exactly the
translation the source performs around the call. -/

/-- Outcome of a native `sock::recv` / `sock::send` style call: either a
byte count or `SOCKET_ERROR` together with the `WSAGetLastError` code. -/
inductive SysResult where
  | ok (n : Nat)
  | err (code : Int)
deriving DecidableEq

/-- Embedding of `Socket::recv(buf, flags)`: calls `sock::recv` with the clamped buffer
length; `SOCKET_ERROR` with `WSAESHUTDOWN` becomes `Ok(0)`, any other
`SOCKET_ERROR` an error, and a byte count is returned as is.  The oracle
maps (length passed, flags passed) to the call's outcome. -/
def recv (os : Nat → Nat → SysResult) (bufLen flags : Nat) : Except IoError Nat :=
  match os (clamp bufLen) flags with
  | .ok n => .ok n
  | .err code =>
    if code = WSAESHUTDOWN then .ok 0 else .error (.systemError code)

/-- Embedding of `Socket::peek(buf)`: same body as `recv` but passing `MSG_PEEK`. -/
def peek (os : Nat → Nat → SysResult) (bufLen : Nat) : Except IoError Nat :=
  match os (clamp bufLen) MSG_PEEK with
  | .ok n => .ok n
  | .err code =>
    if code = WSAESHUTDOWN then .ok 0 else .error (.systemError code)

/-- Outcome of a native `sock::recvfrom` call.  Both constructors carry the
contents the address buffer and its length slot hold after the call; the
code zero-initialises them, so on a failed call that never wrote them they
are `zeroedStorage` and `STORAGE_SIZE`. -/
inductive RecvFromSys where
  | ok (n : Nat) (storage : SockaddrStorage) (addrlen : Nat)
  | err (storage : SockaddrStorage) (addrlen : Nat) (code : Int)
deriving DecidableEq

/-- Embedding of `Socket::recv_from(buf, flags)`: calls `sock::recvfrom` with the
clamped buffer length; `WSAESHUTDOWN` becomes a zero count, any other
`SOCKET_ERROR` returns early with the error, and otherwise the address is
decoded from the storage with the reported length. -/
def recv_from (os : Nat → Nat → RecvFromSys) (bufLen flags : Nat) :
    Except IoError (Nat × SockAddr) :=
  match os (clamp bufLen) flags with
  | .ok n storage addrlen => .ok (n, SockAddr.from_raw_parts storage addrlen)
  | .err storage addrlen code =>
    if code = WSAESHUTDOWN then
      .ok (0, SockAddr.from_raw_parts storage addrlen)
    else
      .error (.systemError code)

/-- Embedding of `Socket::peek_from(buf)`: literally `self.recv_from(buf, MSG_PEEK)`. -/
def peek_from (os : Nat → Nat → RecvFromSys) (bufLen : Nat) :
    Except IoError (Nat × SockAddr) :=
  recv_from os bufLen MSG_PEEK

/-- Outcome of a native `WSARecv` call: the return value together with the
`nread` out-parameter (which `WSAEMSGSIZE` fills with the bytes that fit)
and, on failure, the error code. -/
inductive WsaRecvSys where
  | ok (nread : Nat)
  | err (nread : Nat) (code : Int)
deriving DecidableEq

/-- Embedding of `Socket::recv_vectored(bufs, flags)`: a zero return yields the count
with empty flags; on failure `WSAESHUTDOWN` yields `(0, RecvFlags(0))`,
`WSAEMSGSIZE` yields the count that fit with `RecvFlags(MSG_TRUNC)`, and
anything else is an error. -/
def recv_vectored (sys : WsaRecvSys) : Except IoError (Nat × RecvFlags) :=
  match sys with
  | .ok nread => .ok (nread, ⟨0⟩)
  | .err nread code =>
    if code = WSAESHUTDOWN then .ok (0, ⟨0⟩)
    else if code = WSAEMSGSIZE then .ok (nread, ⟨MSG_TRUNC⟩)
    else .error (.systemError code)

/-- Outcome of a native `WSARecvFrom` call: return value, the `nread`
out-parameter, the contents of the address buffer and its length slot
after the call, and on failure the error code. -/
inductive WsaRecvFromSys where
  | ok (nread : Nat) (storage : SockaddrStorage) (addrlen : Nat)
  | err (nread : Nat) (storage : SockaddrStorage) (addrlen : Nat) (code : Int)
deriving DecidableEq

/-- Embedding of `Socket::recv_from_vectored(bufs, flags)`: a zero return yields empty
flags; on failure only `WSAEMSGSIZE` is special-cased (to
`RecvFlags(MSG_TRUNC)`) — every other code, `WSAESHUTDOWN` included,
returns early as an error.  On both surviving paths the address is decoded
from the storage. -/
def recv_from_vectored (sys : WsaRecvFromSys) :
    Except IoError (Nat × RecvFlags × SockAddr) :=
  match sys with
  | .ok nread storage addrlen =>
    .ok (nread, ⟨0⟩, SockAddr.from_raw_parts storage addrlen)
  | .err nread storage addrlen code =>
    if code = WSAEMSGSIZE then
      .ok (nread, ⟨MSG_TRUNC⟩, SockAddr.from_raw_parts storage addrlen)
    else
      .error (.systemError code)

/-- Embedding of `Socket::send(buf, flags)`: calls `sock::send` with the clamped buffer
length; `SOCKET_ERROR` is an error, any byte count is returned. -/
def send (os : Nat → Nat → SysResult) (bufLen flags : Nat) : Except IoError Nat :=
  match os (clamp bufLen) flags with
  | .ok n => .ok n
  | .err code => .error (.systemError code)

/-- Embedding of `Socket::send_to(buf, flags, addr)`: as `send`, additionally handing
the destination address to `sock::sendto`. -/
def send_to (os : Nat → Nat → SockAddr → SysResult) (bufLen flags : Nat)
    (addr : SockAddr) : Except IoError Nat :=
  match os (clamp bufLen) flags addr with
  | .ok n => .ok n
  | .err code => .error (.systemError code)

/-! ## Generic option access and the option wrappers the claims use -/

/-- Outcome of a native `sock::getsockopt` call for a payload type `T`:
on success the length the OS reports back and the value it wrote. -/
inductive GetsockoptSys (T : Type) where
  | ok (reportedLen : Nat) (value : T)
  | err (code : Int)

/-- Result of `Socket::getsockopt::<T>`: the value read, an OS error, or
the `assert_eq!(len as usize, mem::size_of::<T>())` failure — an abort,
not a recoverable error. -/
inductive SockoptOutcome (T : Type) where
  | ok (v : T)
  | oserr (e : IoError)
  | assertionFailure (reportedLen expected : Nat)

/-- Embedding of `Socket::getsockopt::<T>(opt, val)` with `sizeOfT = size_of::<T>()`:
on a zero return, asserts the reported length equals `size_of::<T>()` and
returns the value read; otherwise the OS error. -/
def getsockopt (T : Type) (sizeOfT : Nat) (sys : GetsockoptSys T) : SockoptOutcome T :=
  match sys with
  | .ok reportedLen value =>
    if reportedLen = sizeOfT then .ok value
    else .assertionFailure reportedLen sizeOfT
  | .err code => .oserr (.systemError code)

/-- Embedding of `Socket::set_read_timeout(dur)`: encodes with `dur2ms` (the `?`
returning its error before any native call) and hands the milliseconds to
`setsockopt(SOL_SOCKET, SO_RCVTIMEO, _)`, modelled by the oracle. -/
def set_read_timeout (os : Nat → Except IoError Unit) (dur : Option Duration) :
    Except IoError Unit :=
  (dur2ms dur).bind os

/-- Embedding of `Socket::set_write_timeout(dur)`: as `set_read_timeout`, for
`SO_SNDTIMEO`. -/
def set_write_timeout (os : Nat → Except IoError Unit) (dur : Option Duration) :
    Except IoError Unit :=
  (dur2ms dur).bind os

/-- The `tcp_keepalive` structure handed to `WSAIoctl` with
`SIO_KEEPALIVE_VALS`; all three fields are `c_ulong` (`u32`). -/
structure TcpKeepalive where
  onoff : Nat
  keepalivetime : Nat
  keepaliveinterval : Nat
deriving DecidableEq

/-- Embedding of `Socket::set_keepalive(keepalive)`: encodes with `dur2ms` (the `?`
returning its error before any native call), builds the structure with
`onoff = keepalive.is_some()` and both time fields set to the
milliseconds, and hands it to `WSAIoctl`, modelled by the oracle. -/
def set_keepalive (os : TcpKeepalive → Except IoError Unit)
    (keepalive : Option Duration) : Except IoError Unit :=
  (dur2ms keepalive).bind fun ms =>
    os ⟨if keepalive.isSome then 1 else 0, ms, ms⟩

/-- Outcome of the `WSAIoctl(SIO_KEEPALIVE_VALS)` read: on a zero return
the structure the OS filled in. -/
inductive IoctlGetSys where
  | ok (ka : TcpKeepalive)
  | err (code : Int)
deriving DecidableEq

/-- Embedding of `Socket::keepalive()`: on success, `None` when the reported `onoff` is
zero or the reported probe interval is zero, otherwise
`Duration::new(interval / 1000, interval % 1000 * 1_000_000)`. -/
def keepalive (sys : IoctlGetSys) : Except IoError (Option Duration) :=
  match sys with
  | .ok ka =>
    .ok (if ka.onoff = 0 then
        none
      else if ka.keepaliveinterval = 0 then
        none
      else
        some (Duration.new (ka.keepaliveinterval / 1000)
          (ka.keepaliveinterval % 1000 * 1000000)))
  | .err code => .error (.systemError code)

/-! ## Claims -/

/-- C1, counterexample: the shutdown-as-zero-bytes rule does NOT apply to
`recv_from_vectored` — when the native `WSARecvFrom` fails with
`WSAESHUTDOWN` the call returns the error instead of a successful
zero-byte read. -/
theorem claim1_counterexample :
    recv_from_vectored (.err 0 zeroedStorage STORAGE_SIZE WSAESHUTDOWN)
      = .error (.systemError WSAESHUTDOWN) ∧
    (recv_from_vectored (.err 0 zeroedStorage STORAGE_SIZE WSAESHUTDOWN)).isOk = false := by
  exact ⟨rfl, rfl⟩

/-- C1, amended: a receive on a descriptor whose read direction is already
shut down (`WSAESHUTDOWN`) returns a successful read of zero bytes for
`recv`, `peek`, `recv_from`, `peek_from` and `recv_vectored`; the one
exception is `recv_from_vectored`, which propagates `WSAESHUTDOWN` as an
error. -/
theorem claim1_shutdown_paths (os : Nat → Nat → SysResult)
    (osf : Nat → Nat → RecvFromSys) (bufLen flags : Nat)
    (storage : SockaddrStorage) (addrlen n : Nat)
    (h1 : os (clamp bufLen) flags = .err WSAESHUTDOWN)
    (h2 : os (clamp bufLen) MSG_PEEK = .err WSAESHUTDOWN)
    (h3 : osf (clamp bufLen) flags = .err storage addrlen WSAESHUTDOWN)
    (h4 : osf (clamp bufLen) MSG_PEEK = .err storage addrlen WSAESHUTDOWN) :
    recv os bufLen flags = .ok 0 ∧
    peek os bufLen = .ok 0 ∧
    recv_from osf bufLen flags = .ok (0, SockAddr.from_raw_parts storage addrlen) ∧
    peek_from osf bufLen = .ok (0, SockAddr.from_raw_parts storage addrlen) ∧
    recv_vectored (.err n WSAESHUTDOWN) = .ok (0, ⟨0⟩) ∧
    recv_from_vectored (.err n storage addrlen WSAESHUTDOWN)
      = .error (.systemError WSAESHUTDOWN) := by
  refine ⟨?_, ?_, ?_, ?_, ?_, ?_⟩
  · simp [recv, h1]
  · simp [peek, h2]
  · simp [recv_from, h3]
  · simp [peek_from, recv_from, h4]
  · rfl
  · rfl

/-- Witness for C1, amended, at concrete oracles and inputs. -/
theorem claim1_shutdown_paths_witness :
    recv (fun _ _ => .err WSAESHUTDOWN) 16 0 = .ok 0 ∧
    peek (fun _ _ => .err WSAESHUTDOWN) 16 = .ok 0 ∧
    recv_from (fun _ _ => .err zeroedStorage STORAGE_SIZE WSAESHUTDOWN) 16 0
      = .ok (0, SockAddr.from_raw_parts zeroedStorage STORAGE_SIZE) ∧
    peek_from (fun _ _ => .err zeroedStorage STORAGE_SIZE WSAESHUTDOWN) 16
      = .ok (0, SockAddr.from_raw_parts zeroedStorage STORAGE_SIZE) ∧
    recv_vectored (.err 5 WSAESHUTDOWN) = .ok (0, ⟨0⟩) ∧
    recv_from_vectored (.err 5 zeroedStorage STORAGE_SIZE WSAESHUTDOWN)
      = .error (.systemError WSAESHUTDOWN) :=
  claim1_shutdown_paths _ _ 16 0 zeroedStorage STORAGE_SIZE 5 rfl rfl rfl rfl

/-- C2: when a vectored receive fails with `WSAEMSGSIZE` the call still
succeeds with the byte count that fit and the truncation flag
(`MSG_TRUNC`) set; `recv_from_vectored` additionally returns the address
decoded from the storage the OS filled. -/
theorem claim2_msgsize_truncation (nread : Nat) (storage : SockaddrStorage)
    (addrlen : Nat) :
    recv_vectored (.err nread WSAEMSGSIZE) = .ok (nread, ⟨MSG_TRUNC⟩) ∧
    recv_from_vectored (.err nread storage addrlen WSAEMSGSIZE)
      = .ok (nread, ⟨MSG_TRUNC⟩, SockAddr.from_raw_parts storage addrlen) ∧
    RecvFlags.is_truncated ⟨MSG_TRUNC⟩ = true := by
  refine ⟨?_, ?_, ?_⟩
  · rfl
  · rfl
  · rfl

/-- C10: on the shutdown-as-zero-bytes path of `recv_from`/`peek_from`
(the OS call failed with `WSAESHUTDOWN`, leaving the zero-initialised
address storage and its initial length untouched), the returned pair is
`(0, addr)` where `addr` is decoded from that zeroed storage: its family
tag is `0` (`AF_UNSPEC`) and every data byte is zero — not a real peer
address. -/
theorem claim10_shutdown_addr_unspecified (osf : Nat → Nat → RecvFromSys)
    (bufLen flags : Nat)
    (h1 : osf (clamp bufLen) flags = .err zeroedStorage STORAGE_SIZE WSAESHUTDOWN)
    (h2 : osf (clamp bufLen) MSG_PEEK = .err zeroedStorage STORAGE_SIZE WSAESHUTDOWN) :
    recv_from osf bufLen flags
      = .ok (0, SockAddr.from_raw_parts zeroedStorage STORAGE_SIZE) ∧
    peek_from osf bufLen
      = .ok (0, SockAddr.from_raw_parts zeroedStorage STORAGE_SIZE) ∧
    (SockAddr.from_raw_parts zeroedStorage STORAGE_SIZE).family = 0 ∧
    ∀ b ∈ (SockAddr.from_raw_parts zeroedStorage STORAGE_SIZE).storage.data, b = 0 := by
  refine ⟨?_, ?_, rfl, ?_⟩
  · simp [recv_from, h1]
  · simp [peek_from, recv_from, h2]
  · intro b hb
    exact List.eq_of_mem_replicate hb

/-- The number of whole milliseconds in `d`, rounded up — the spec's
"rounded up to the nearest whole millisecond". -/
def ceil_ms (d : Duration) : Nat :=
  d.secs * 1000 + d.nanos / 1000000 + (if d.nanos % 1000000 > 0 then 1 else 0)

/-- Evaluation of `dur2ms` when the checked `u64` chain cannot overflow:
it computes the rounded-up millisecond count, saturates it at
`DWORD_MAX`, and rejects `0`. -/
theorem dur2ms_some_eval (d : Duration) (h : ceil_ms d ≤ U64MAX) :
    dur2ms (some d) = if ceil_ms d = 0 then .error .invalidInput
      else .ok (if ceil_ms d > DWORD_MAX then INFINITE else ceil_ms d) := by
  have hmul : d.secs * 1000 ≤ U64MAX := by
    unfold ceil_ms at h; split_ifs at h <;> omega
  have hadd1 : d.secs * 1000 + d.nanos / 1000000 ≤ U64MAX := by
    unfold ceil_ms at h; split_ifs at h <;> omega
  have hadd2 : d.secs * 1000 + d.nanos / 1000000
      + (if d.nanos % 1000000 > 0 then 1 else 0) ≤ U64MAX := by
    unfold ceil_ms at h; exact h
  simp only [dur2ms, checked_mul, checked_add]
  rw [if_pos hmul]
  simp only [Option.bind]
  rw [if_pos hadd1]
  simp only [Option.bind]
  rw [if_pos hadd2]
  simp only [Option.map, Option.getD]
  unfold ceil_ms
  by_cases hs : d.secs * 1000 + d.nanos / 1000000
      + (if d.nanos % 1000000 > 0 then 1 else 0) > DWORD_MAX
  · have hX0 : ¬ d.secs * 1000 + d.nanos / 1000000
        + (if d.nanos % 1000000 > 0 then 1 else 0) = 0 := by
      simp only [DWORD_MAX] at hs; omega
    rw [if_pos hs, if_neg (show ¬ INFINITE = 0 by simp [INFINITE]), if_neg hX0]
  · rw [if_neg hs]

/-- Evaluation of `dur2ms` when the checked `u64` chain overflows: the
`unwrap_or(INFINITE)` saturates to `INFINITE`. -/
theorem dur2ms_some_overflow (d : Duration) (h : U64MAX < ceil_ms d) :
    dur2ms (some d) = .ok INFINITE := by
  simp only [dur2ms, checked_mul, checked_add]
  by_cases hmul : d.secs * 1000 ≤ U64MAX
  · rw [if_pos hmul]
    simp only [Option.bind]
    by_cases hadd1 : d.secs * 1000 + d.nanos / 1000000 ≤ U64MAX
    · rw [if_pos hadd1]
      simp only [Option.bind]
      have hadd2 : ¬ d.secs * 1000 + d.nanos / 1000000
          + (if d.nanos % 1000000 > 0 then 1 else 0) ≤ U64MAX := by
        unfold ceil_ms at h
        split_ifs at h ⊢ <;> omega
      rw [if_neg hadd2]
      simp [INFINITE]
    · rw [if_neg hadd1]
      simp [INFINITE]
  · rw [if_neg hmul]
    simp [INFINITE]

/-- For every nonzero duration, `dur2ms` succeeds with a nonzero
millisecond count. -/
theorem dur2ms_some_ok (d : Duration) (h : 0 < d.secs ∨ 0 < d.nanos) :
    ∃ ms, 0 < ms ∧ dur2ms (some d) = .ok ms := by
  have hc : ceil_ms d ≠ 0 := by
    unfold ceil_ms
    split_ifs with hn <;> omega
  by_cases hov : ceil_ms d ≤ U64MAX
  · rw [dur2ms_some_eval d hov, if_neg hc]
    refine ⟨_, ?_, rfl⟩
    split_ifs with h2
    · simp [INFINITE]
    · omega
  · push_neg at hov
    rw [dur2ms_some_overflow d hov]
    exact ⟨INFINITE, by simp [INFINITE], rfl⟩

/-- Decoding a nonzero millisecond count. -/
theorem ms2dur_pos (m : Nat) (h : 0 < m) :
    ms2dur m = some ⟨m / 1000, m % 1000 * 1000000⟩ := by
  have h1 : m % 1000 * 1000000 < 1000000000 := by
    have := Nat.mod_lt m (show 0 < 1000 by norm_num)
    omega
  unfold ms2dur Duration.new
  rw [if_neg (by omega)]
  rw [Nat.div_eq_of_lt h1, Nat.mod_eq_of_lt h1, Nat.add_zero]

/-- C3: `dur2ms` fails — with the local `InvalidInput` error, returned by
`set_read_timeout`, `set_write_timeout` and `set_keepalive` before the
native call (for every oracle) — exactly when the caller passes `Some` of
the zero duration; every nonzero `Some(d)` and `None` succeed. -/
theorem claim3_zero_timeout_invalid (d : Duration) :
    (dur2ms (some d) = .error .invalidInput ↔ d.secs = 0 ∧ d.nanos = 0) ∧
    ((0 < d.secs ∨ 0 < d.nanos) → ∃ ms, 0 < ms ∧ dur2ms (some d) = .ok ms) ∧
    dur2ms none = .ok 0 ∧
    (∀ os, set_read_timeout os (some ⟨0, 0⟩) = .error .invalidInput) ∧
    (∀ os, set_write_timeout os (some ⟨0, 0⟩) = .error .invalidInput) ∧
    (∀ os, set_keepalive os (some ⟨0, 0⟩) = .error .invalidInput) ∧
    (∀ os ms, dur2ms (some d) = .ok ms → set_read_timeout os (some d) = os ms) := by
  refine ⟨?_, dur2ms_some_ok d, rfl, fun os => rfl, fun os => rfl, fun os => rfl, ?_⟩
  · constructor
    · intro h
      by_contra hne
      have hp : 0 < d.secs ∨ 0 < d.nanos := by omega
      obtain ⟨ms, _, hok⟩ := dur2ms_some_ok d hp
      rw [h] at hok
      exact Except.noConfusion hok
    · rintro ⟨h1, h2⟩
      obtain ⟨s, n⟩ := d
      simp only at h1 h2
      subst h1; subst h2
      rfl
  · intro os ms h
    unfold set_read_timeout
    rw [h]
    rfl

/-- Witness for C3 at a concrete nonzero duration. -/
theorem claim3_zero_timeout_invalid_witness :
    ∃ ms, 0 < ms ∧ dur2ms (some ⟨0, 5⟩) = .ok ms :=
  (claim3_zero_timeout_invalid ⟨0, 5⟩).2.1 (Or.inr (by norm_num))

/-- C4: for every duration of at least one millisecond whose rounded-up
millisecond count fits the OS maximum, decoding the encoding yields
`Some` of the duration rounded up to the nearest whole millisecond (the
third conjunct pins that reading down: the result represents
`ceil_ms d` milliseconds, which over-approximates `d` by less than one
millisecond); `None` encodes to the sentinel `0`, which decodes back to
`None`. -/
theorem claim4_duration_roundtrip (d : Duration) (_h9 : d.nanos < 1000000000)
    (hlo : 1000000 ≤ d.secs * 1000000000 + d.nanos)
    (hhi : ceil_ms d ≤ DWORD_MAX) :
    dur2ms (some d) = .ok (ceil_ms d) ∧
    ms2dur (ceil_ms d) = some ⟨ceil_ms d / 1000, ceil_ms d % 1000 * 1000000⟩ ∧
    (d.secs * 1000000000 + d.nanos ≤ ceil_ms d * 1000000 ∧
      ceil_ms d * 1000000 < d.secs * 1000000000 + d.nanos + 1000000) ∧
    (ceil_ms d / 1000) * 1000000000 + ceil_ms d % 1000 * 1000000
      = ceil_ms d * 1000000 ∧
    dur2ms none = .ok 0 ∧ ms2dur 0 = none := by
  have hpos : 0 < ceil_ms d := by
    unfold ceil_ms
    split_ifs with hn <;> omega
  have hu : ceil_ms d ≤ U64MAX := by
    simp only [DWORD_MAX] at hhi
    simp only [U64MAX]
    omega
  refine ⟨?_, ms2dur_pos _ hpos, ?_, ?_, rfl, rfl⟩
  · rw [dur2ms_some_eval d hu]
    rw [if_neg (by omega), if_neg (by omega)]
  · unfold ceil_ms
    split_ifs with hn <;> omega
  · omega

/-- Witness for C4 at the concrete duration 1 s + 0.5 ms. -/
theorem claim4_duration_roundtrip_witness :
    dur2ms (some ⟨1, 500000⟩) = .ok (ceil_ms ⟨1, 500000⟩) :=
  (claim4_duration_roundtrip ⟨1, 500000⟩ (by norm_num) (by norm_num)
    (by norm_num [ceil_ms, DWORD_MAX])).1

/-- C5: for every IPv4 address, `from_in_addr (to_in_addr a) = a`, and for
every IPv6 address, `from_in6_addr (to_in6_addr a) = a`; moreover the
in-memory bytes of the stored native `u32` are exactly the four octets in
order — network byte order — on either host byte order. -/
theorem claim5_addr_roundtrip (e : Endian) (a : Ipv4Addr)
    (h0 : a.o0 < 256) (h1 : a.o1 < 256) (h2 : a.o2 < 256) (h3 : a.o3 < 256)
    (v6 : Ipv6Addr) :
    from_in_addr e (to_in_addr e a) = a ∧
    u32_to_ne_bytes e (to_in_addr e a).S_addr = (a.o0, a.o1, a.o2, a.o3) ∧
    from_in6_addr (to_in6_addr v6) = v6 := by
  obtain ⟨b0, b1, b2, b3⟩ := a
  simp only at h0 h1 h2 h3
  cases e with
  | little =>
    have hb : u32_to_ne_bytes .little (to_in_addr .little ⟨b0, b1, b2, b3⟩).S_addr
        = (b0, b1, b2, b3) := by
      simp only [to_in_addr, u32_from_ne_bytes, u32_to_ne_bytes, Prod.mk.injEq]
      refine ⟨?_, ?_, ?_, ?_⟩ <;> omega
    refine ⟨?_, hb, rfl⟩
    unfold from_in_addr
    rw [hb]
  | big =>
    have hb : u32_to_ne_bytes .big (to_in_addr .big ⟨b0, b1, b2, b3⟩).S_addr
        = (b0, b1, b2, b3) := by
      simp only [to_in_addr, u32_from_ne_bytes, u32_to_ne_bytes, Prod.mk.injEq]
      refine ⟨?_, ?_, ?_, ?_⟩ <;> omega
    refine ⟨?_, hb, rfl⟩
    unfold from_in_addr
    rw [hb]

/-- Witness for C5 at `127.0.0.1` on a little-endian host. -/
theorem claim5_addr_roundtrip_witness :
    from_in_addr .little (to_in_addr .little ⟨127, 0, 0, 1⟩) = ⟨127, 0, 0, 1⟩ :=
  (claim5_addr_roundtrip .little ⟨127, 0, 0, 1⟩ (by norm_num) (by norm_num)
    (by norm_num) (by norm_num) ⟨List.replicate 16 0⟩).1

/-- C6, counterexample: `dur2linger` does NOT saturate — the `as u16` cast
wraps, so 65536 seconds encode as `l_linger = 0`, not the saturated
65535. -/
theorem claim6_counterexample :
    dur2linger (some ⟨65536, 0⟩) = ⟨1, 0⟩ ∧
    dur2linger (some ⟨65536, 0⟩) ≠ ⟨1, 65535⟩ ∧
    (dur2linger (some ⟨65536, 0⟩)).l_linger ≠ min 65536 65535 := by
  refine ⟨rfl, ?_, ?_⟩ <;> decide

/-- C6, amended: `dur2linger` maps `None` to the linger-disabled structure
(`l_onoff = 0`) and `Some(d)` to the linger-enabled structure
(`l_onoff = 1`) with `l_linger` the whole seconds of `d` (nanoseconds
discarded) reduced modulo 2^16 — a wrapping cast, agreeing with the
untruncated seconds only below 65536. -/
theorem claim6_linger_encode (d : Duration) (n : Nat) :
    dur2linger none = ⟨0, 0⟩ ∧
    dur2linger (some d) = ⟨1, d.secs % 65536⟩ ∧
    dur2linger (some ⟨d.secs, n⟩) = dur2linger (some ⟨d.secs, 0⟩) ∧
    (d.secs < 65536 → dur2linger (some d) = ⟨1, d.secs⟩) ∧
    (dur2linger (some d)).l_linger < 65536 := by
  refine ⟨rfl, rfl, rfl, ?_, ?_⟩
  · intro h
    simp [dur2linger, Nat.mod_eq_of_lt h]
  · simp only [dur2linger]
    exact Nat.mod_lt _ (by norm_num)

/-- Witness for C6, amended, at 30 seconds. -/
theorem claim6_linger_encode_witness :
    dur2linger (some ⟨30, 0⟩) = ⟨1, 30⟩ :=
  (claim6_linger_encode ⟨30, 0⟩ 0).2.2.2.1 (by norm_num)

/-- C7: `set_keepalive(None)` hands the OS the structure with the enabled
flag off; `set_keepalive(Some(d))` (for `d` accepted by `dur2ms`, i.e.
`d > 0`) hands it the structure with the flag on and both the idle time
and the probe interval equal to `d`'s millisecond encoding; `keepalive()`
returns `None` exactly when the reported flag is off or the reported
probe interval is zero, and otherwise `Some` of the `Duration` rebuilt
from the probe interval in milliseconds. -/
theorem claim7_keepalive (os : TcpKeepalive → Except IoError Unit) (d : Duration)
    (ms : Nat) (hms : dur2ms (some d) = .ok ms) (ka : TcpKeepalive) :
    set_keepalive os none = os ⟨0, 0, 0⟩ ∧
    set_keepalive os (some d) = os ⟨1, ms, ms⟩ ∧
    (keepalive (.ok ka) = .ok none ↔ ka.onoff = 0 ∨ ka.keepaliveinterval = 0) ∧
    (ka.onoff ≠ 0 → ka.keepaliveinterval ≠ 0 →
      keepalive (.ok ka) = .ok (some (Duration.new (ka.keepaliveinterval / 1000)
        (ka.keepaliveinterval % 1000 * 1000000)))) := by
  refine ⟨rfl, ?_, ?_, ?_⟩
  · unfold set_keepalive
    rw [hms]
    rfl
  · constructor
    · intro h
      by_contra hc
      push_neg at hc
      obtain ⟨hc1, hc2⟩ := hc
      simp [keepalive, hc1, hc2] at h
    · rintro (h | h) <;> simp [keepalive, h]
  · intro h1 h2
    simp [keepalive, h1, h2]

/-- Witness for C7 at 1 second (encoding to 1000 ms). -/
theorem claim7_keepalive_witness :
    set_keepalive (fun _ => Except.ok ()) (some ⟨1, 0⟩) = Except.ok () :=
  (claim7_keepalive (fun _ => Except.ok ()) ⟨1, 0⟩ 1000 rfl ⟨1, 0, 2000⟩).2.1

/-- C8: after a successful generic option read, a reported size equal to
`size_of::<T>()` makes `getsockopt` return the value read; any mismatch
ends in the assertion-failure outcome (an abort), never a recoverable
error. -/
theorem claim8_getsockopt_size (T : Type) (sizeOfT : Nat) (value : T)
    (reportedLen : Nat) (h : reportedLen = sizeOfT) :
    getsockopt T sizeOfT (.ok reportedLen value) = .ok value ∧
    (∀ len2 (v2 : T), len2 ≠ sizeOfT →
      getsockopt T sizeOfT (.ok len2 v2) = .assertionFailure len2 sizeOfT) := by
  constructor
  · simp [getsockopt, h]
  · intro len2 v2 hne
    simp [getsockopt, hne]

/-- Witness for C8 with a 4-byte payload. -/
theorem claim8_getsockopt_size_witness :
    getsockopt Nat 4 (.ok 4 7) = .ok 7 :=
  (claim8_getsockopt_size Nat 4 7 4 rfl).1

/-- C9: every single-buffer native send/receive passes
`min(buffer length, c_int::MAX)` to the OS — over-long buffers are
clamped, never rejected (the echo oracle exhibits the length actually
handed over), and lengths at or below the maximum pass through
unchanged. -/
theorem claim9_clamp (n m bufLen flags : Nat) (hn : n ≤ CINT_MAX)
    (hm : CINT_MAX < m) (addr : SockAddr) :
    clamp n = n ∧
    clamp m = CINT_MAX ∧
    clamp bufLen = min bufLen CINT_MAX ∧
    send (fun len _ => .ok len) bufLen flags = .ok (min bufLen CINT_MAX) ∧
    send_to (fun len _ _ => .ok len) bufLen flags addr = .ok (min bufLen CINT_MAX) ∧
    recv (fun len _ => .ok len) bufLen flags = .ok (min bufLen CINT_MAX) ∧
    peek (fun len _ => .ok len) bufLen = .ok (min bufLen CINT_MAX) ∧
    recv_from (fun len _ => .ok len zeroedStorage STORAGE_SIZE) bufLen flags
      = .ok (min bufLen CINT_MAX, SockAddr.from_raw_parts zeroedStorage STORAGE_SIZE) := by
  refine ⟨?_, ?_, rfl, rfl, rfl, rfl, rfl, rfl⟩
  · unfold clamp
    omega
  · unfold clamp
    omega

/-- Witness for C9 at a length below and a length above the maximum. -/
theorem claim9_clamp_witness :
    clamp 10 = 10 ∧ clamp 4000000000 = CINT_MAX :=
  ⟨(claim9_clamp 10 4000000000 0 0 (by norm_num [CINT_MAX]) (by norm_num [CINT_MAX])
      (SockAddr.from_raw_parts zeroedStorage 0)).1,
   (claim9_clamp 10 4000000000 0 0 (by norm_num [CINT_MAX]) (by norm_num [CINT_MAX])
      (SockAddr.from_raw_parts zeroedStorage 0)).2.1⟩

/-- Witness for C10 at a concrete oracle and input. -/
theorem claim10_shutdown_addr_unspecified_witness :
    recv_from (fun _ _ => .err zeroedStorage STORAGE_SIZE WSAESHUTDOWN) 8 0
      = .ok (0, SockAddr.from_raw_parts zeroedStorage STORAGE_SIZE) ∧
    peek_from (fun _ _ => .err zeroedStorage STORAGE_SIZE WSAESHUTDOWN) 8
      = .ok (0, SockAddr.from_raw_parts zeroedStorage STORAGE_SIZE) ∧
    (SockAddr.from_raw_parts zeroedStorage STORAGE_SIZE).family = 0 ∧
    ∀ b ∈ (SockAddr.from_raw_parts zeroedStorage STORAGE_SIZE).storage.data, b = 0 :=
  claim10_shutdown_addr_unspecified _ 8 0 rfl rfl

end Win
